import Mathlib

/-
Verification development for the flight-record cleaning pipeline
(clean_flights_data and helpers in flights_project/part4/part4.py).

Modelling conventions:
  * Timestamps are integer minutes since a fixed epoch.  A record
    anchors its four packed time fields to its own calendar date, so
    only the day index of the date matters; the library calendar map
    pd.to_datetime(year, month, day) is abstracted to an injective day
    encoding `dayIndex` (no claim depends on calendar arithmetic).
  * All numeric columns of the table are integers (the data model:
    packed times, delays and air time are nullable integer columns), and
    every value the pipeline derives from them is again an integer
    number of minutes, so the whole state space is over ℤ.  The code
    computes total_seconds() / 60, exact on minute-granularity data.
  * numpy.isclose(a, b, atol) is |a - b| <= atol + rtol * |b| with the
    default rtol = 1e-5.  On integers this is modelled exactly by the
    scaled comparison 100000 * |a - b| <= 100000 * atol + |b|; on the
    integer-valued data of this pipeline the exact comparison agrees
    with the float evaluation.
  * Nullable raw columns are Options; pandas dropna removes a row when
    any modelled column is none, after which all values are present, so
    the decoded record type has no Options (the pd.notnull guards inside
    fix_flight_data are vacuously true there).
  * Airport timezone resolution: airports.csv is a code-to-raw-tz table;
    utc_offset_to_tz is the hardcoded dictionary from the source.  Raw
    tz values that are non-numeric or outside the dictionary resolve to
    none either way, so the raw tz column is modelled as an integer.
-/

namespace Flights

/-- Model of numpy.isclose a b (atol) on integer data, with the default
relative tolerance rtol = 1e-5 folded in exactly: the condition
|a - b| <= atol + rtol * |b| scaled by 100000. -/
def npIsClose (a b atol : ℤ) : Prop := 100000 * |a - b| ≤ 100000 * atol + |b|

instance (a b atol : ℤ) : Decidable (npIsClose a b atol) :=
  inferInstanceAs (Decidable (100000 * |a - b| ≤ 100000 * atol + |b|))

/-- One raw row of the flights table, before cleaning.  All modelled
columns are nullable, matching NULL/NaN in the SQL source; airport codes
are abstracted to naturals.  Passthrough columns outside the cleaning
core (carrier, tailnum, distance) are omitted. -/
structure RawRecord where
  year : Option ℤ
  month : Option ℤ
  day : Option ℤ
  sched_dep_time : Option ℤ
  dep_time : Option ℤ
  sched_arr_time : Option ℤ
  arr_time : Option ℤ
  dep_delay : Option ℤ
  arr_delay : Option ℤ
  air_time : Option ℤ
  origin : Option ℕ
  dest : Option ℕ
deriving DecidableEq

/-- flights.dropna(): a row survives when every column is non-null. -/
def rawComplete (r : RawRecord) : Bool :=
  r.year.isSome && r.month.isSome && r.day.isSome &&
  r.sched_dep_time.isSome && r.dep_time.isSome &&
  r.sched_arr_time.isSome && r.arr_time.isSome &&
  r.dep_delay.isSome && r.arr_delay.isSome && r.air_time.isSome &&
  r.origin.isSome && r.dest.isSome

/-- Helper for drop_duplicates: keep the first occurrence of each value. -/
def dedupSeen {α : Type} [DecidableEq α] : List α → List α → List α
  | _, [] => []
  | seen, a :: l => if a ∈ seen then dedupSeen seen l else a :: dedupSeen (a :: seen) l

/-- flights.drop_duplicates(): keep the first copy of each duplicated row. -/
def dedupFirst {α : Type} [DecidableEq α] (l : List α) : List α := dedupSeen [] l

/-- Abstract injective stand-in for the pd.to_datetime calendar map:
a day index for the (year, month, day) triple. -/
def dayIndex (y m d : ℤ) : ℤ := 372 * y + 31 * m + d

/-- Core of time_to_timedelta on a numeric value: hours = t // 100,
minutes = t % 100 (Python floor division and modulus), as total minutes. -/
def timeToTimedeltaZ (n : ℤ) : ℤ := 60 * Int.fdiv n 100 + Int.fmod n 100

/-- time_to_timedelta: null propagates as missing, numeric input is
decoded without any range validation of the hour or minute component. -/
def timeToTimedelta (t : Option ℤ) : Option ℤ := t.map timeToTimedeltaZ

/-- One decoded flight record: the four time fields are absolute
timestamps in minutes, delays and air time are stored values in minutes. -/
@[ext]
structure FRecord where
  date : ℤ
  sched_dep_time : ℤ
  dep_time : ℤ
  sched_arr_time : ℤ
  arr_time : ℤ
  dep_delay : ℤ
  arr_delay : ℤ
  air_time : ℤ
  origin : ℕ
  dest : ℕ
deriving DecidableEq

/-- Decoding stage: convert_times_to_datetime plus the loop
flights[col] = flights[date] + time_to_timedelta(flights[col]).
After dropna every column is non-null, so decoding always succeeds
on pipeline records. -/
def decodeRecord (r : RawRecord) : Option FRecord :=
  match r.year, r.month, r.day, r.sched_dep_time, r.dep_time,
        r.sched_arr_time, r.arr_time, r.dep_delay, r.arr_delay,
        r.air_time, r.origin, r.dest with
  | some y, some mo, some dy, some sd, some dp, some sa, some ar,
    some dd, some ad, some av, some og, some ds =>
      some { date := dayIndex y mo dy
             sched_dep_time := 1440 * dayIndex y mo dy + timeToTimedeltaZ sd
             dep_time := 1440 * dayIndex y mo dy + timeToTimedeltaZ dp
             sched_arr_time := 1440 * dayIndex y mo dy + timeToTimedeltaZ sa
             arr_time := 1440 * dayIndex y mo dy + timeToTimedeltaZ ar
             dep_delay := dd
             arr_delay := ad
             air_time := av
             origin := og
             dest := ds }
  | _, _, _, _, _, _, _, _, _, _, _, _ => none

/-- Hour-of-day of a timestamp in minutes, as pandas dt.hour computes it. -/
def hourOf (t : ℤ) : ℤ := (Int.fdiv t 60) % 24

/-- Rollover rule 1: advance the actual departure by one day. -/
def rolloverDep (r : FRecord) : FRecord :=
  if hourOf r.dep_time < 6 ∧ 18 < hourOf r.sched_dep_time ∧
     r.dep_time < r.sched_dep_time
  then { r with dep_time := r.dep_time + 1440 } else r

/-- Rollover rule 2: advance the scheduled arrival by one day. -/
def rolloverSchedArr (r : FRecord) : FRecord :=
  if hourOf r.sched_arr_time < 6 ∧ 18 < hourOf r.sched_dep_time ∧
     r.sched_arr_time < r.sched_dep_time
  then { r with sched_arr_time := r.sched_arr_time + 1440 } else r

/-- Rollover rule 3: advance the actual arrival by one day, reading the
actual departure as possibly already advanced by rule 1. -/
def rolloverArr (r : FRecord) : FRecord :=
  if hourOf r.arr_time < 6 ∧ 18 < hourOf r.dep_time ∧
     r.arr_time < r.dep_time
  then { r with arr_time := r.arr_time + 1440 } else r

/-- The three overnight adjustments of clean_flights_data, in source
order; rule 3 sees the departure updated by rule 1. -/
def rolloverCorrect (r : FRecord) : FRecord :=
  rolloverArr (rolloverSchedArr (rolloverDep r))

/-- fix_flight_data: the four repair steps in source order.  The local
variables arr, dep_delay, arr_delay hold the values read at entry, while
step 3 reads the row fields, exactly as the Python row mutation does.
The pd.notnull guards of step 2 always hold after dropna. -/
def fixFlightData (r : FRecord) : FRecord :=
  let sched_dep := r.sched_dep_time
  let dep := r.dep_time
  let sched_arr := r.sched_arr_time
  let arr := r.arr_time
  let air_time := r.air_time
  let dep_delay := r.dep_delay
  let arr_delay := r.arr_delay
  let correct_dep_delay := dep - sched_dep
  let r1 := if npIsClose dep_delay correct_dep_delay 2 then r
            else { r with dep_delay := correct_dep_delay }
  let r2 := if arr ≤ dep then { r1 with arr_time := sched_arr + dep_delay }
            else r1
  let actual_air_time := r2.arr_time - r2.dep_time
  let r3 := if npIsClose actual_air_time air_time 5 then r2
            else { r2 with air_time := actual_air_time }
  let correct_arr_delay := arr - sched_arr
  if npIsClose arr_delay correct_arr_delay 2 then r3
  else { r3 with arr_delay := correct_arr_delay }

/-- check_flight_consistency with the default air-time tolerance 5. -/
def checkFlightConsistency (r : FRecord) : Bool :=
  if r.arr_time ≤ r.dep_time then false
  else if r.sched_arr_time ≤ r.sched_dep_time then false
  else if npIsClose (r.arr_time - r.dep_time) r.air_time 5 then true
  else false

/-- The hardcoded utc_offset_to_tz dictionary of the source. -/
def utcOffsetToTz (v : ℤ) : Option ℤ :=
  if v = -10 then some (-10)
  else if v = -9 then some (-9)
  else if v = -8 then some (-8)
  else if v = -7 then some (-7)
  else if v = -6 then some (-6)
  else if v = -5 then some (-5)
  else if v = -4 then some (-4)
  else if v = 1 then some 1
  else if v = 8 then some 8
  else none

/-- airports.csv abstracted: airport code to raw tz column value. -/
def AirportTable : Type := List (ℕ × ℤ)

/-- Offset resolution: look the airport up in the reference table, then
convert through utc_offset_to_tz; either step can fail. -/
def airportOffset (tbl : AirportTable) (code : ℕ) : Option ℤ :=
  (List.lookup code tbl).bind utcOffsetToTz

/-- An internal record tagged by the validator. -/
structure TRecord where
  base : FRecord
  is_consistent : Bool
deriving DecidableEq

/-- One emitted row of the cleaned table: the repaired record plus the
two offsets and the local arrival time.  There is no consistency flag
field: the source drops the is_consistent column before returning. -/
structure OutRecord where
  base : FRecord
  dep_offset : ℤ
  arr_offset : ℤ
  local_arr_time : ℤ
deriving DecidableEq

/-- Local-time emission for one repaired record: fails when either
airport offset is unresolvable, otherwise attaches the offsets and
local_arr_time = arr_time - dep_offset hours + arr_offset hours. -/
def emitF (tbl : AirportTable) (f : FRecord) : Option OutRecord :=
  match airportOffset tbl f.origin, airportOffset tbl f.dest with
  | some o1, some o2 =>
      some { base := f
             dep_offset := o1
             arr_offset := o2
             local_arr_time := f.arr_time - 60 * o1 + 60 * o2 }
  | _, _ => none

/-- Stage 1: flights.dropna(). -/
def dropnaStage (B : List RawRecord) : List RawRecord := B.filter rawComplete

/-- Stage 2: flights.drop_duplicates(). -/
def dedupStage (B : List RawRecord) : List RawRecord := dedupFirst B

/-- Stage 3: decode the four packed times against the record date. -/
def decodeStage (B : List RawRecord) : List FRecord := B.filterMap decodeRecord

/-- Stage 4: the three overnight rollover adjustments. -/
def rolloverStage (l : List FRecord) : List FRecord := l.map rolloverCorrect

/-- Stage 5: keep rows with sched_arr_time strictly after sched_dep_time. -/
def schedFilterStage (l : List FRecord) : List FRecord :=
  l.filter fun r => decide (r.sched_dep_time < r.sched_arr_time)

/-- Stage 6: apply fix_flight_data to every surviving row. -/
def fixStage (l : List FRecord) : List FRecord := l.map fixFlightData

/-- Stage 7: tag each repaired row with check_flight_consistency. -/
def tagStage (l : List FRecord) : List TRecord :=
  l.map fun r => { base := r, is_consistent := checkFlightConsistency r }

/-- Stage 8 and emission: keep rows whose origin and destination offsets
both resolve, attach offsets and local arrival time, and drop the
is_consistent column (the OutRecord type has no flag field). -/
def localStage (tbl : AirportTable) (l : List TRecord) : List OutRecord :=
  l.filterMap fun t => emitF tbl t.base

/-- clean_flights_data: the full pipeline over a batch. -/
def cleanFlightsData (tbl : AirportTable) (B : List RawRecord) : List OutRecord :=
  localStage tbl (tagStage (fixStage (schedFilterStage (rolloverStage
    (decodeStage (dedupStage (dropnaStage B)))))))

/-- Record-level content of one pipeline pass over already-decoded
records, used to express re-running the pipeline on its own output: on
such records the dropna stage is vacuous (no nulls representable) and
decoding is the identity (times are already absolute), the validator tag
is dropped at emission, and the local-time columns are recomputed from
the base fields each pass, so a pass is this composite. -/
def pipelineOnClean (tbl : AirportTable) (l : List FRecord) : List FRecord :=
  ((((dedupFirst l).map rolloverCorrect).filter
      fun r => decide (r.sched_dep_time < r.sched_arr_time)).map
    fixFlightData).filter
    fun r => (airportOffset tbl r.origin).isSome && (airportOffset tbl r.dest).isSome

/-! Helper lemmas about the repair and rollover functions. -/

lemma npIsClose_refl (x atol : ℤ) (h : 0 ≤ atol) : npIsClose x x atol := by
  unfold npIsClose
  rw [sub_self, abs_zero, mul_zero]
  have := abs_nonneg x
  linarith

lemma fix_date (r : FRecord) : (fixFlightData r).date = r.date := by
  simp only [fixFlightData]; split_ifs <;> rfl

lemma fix_sched_dep (r : FRecord) :
    (fixFlightData r).sched_dep_time = r.sched_dep_time := by
  simp only [fixFlightData]; split_ifs <;> rfl

lemma fix_dep (r : FRecord) : (fixFlightData r).dep_time = r.dep_time := by
  simp only [fixFlightData]; split_ifs <;> rfl

lemma fix_sched_arr (r : FRecord) :
    (fixFlightData r).sched_arr_time = r.sched_arr_time := by
  simp only [fixFlightData]; split_ifs <;> rfl

lemma fix_origin (r : FRecord) : (fixFlightData r).origin = r.origin := by
  simp only [fixFlightData]; split_ifs <;> rfl

lemma fix_dest (r : FRecord) : (fixFlightData r).dest = r.dest := by
  simp only [fixFlightData]; split_ifs <;> rfl

lemma fix_arr_of_lt (r : FRecord) (h : r.dep_time < r.arr_time) :
    (fixFlightData r).arr_time = r.arr_time := by
  simp only [fixFlightData]
  split_ifs with h1 h2 h3 h4 <;> first | rfl | omega

lemma fix_arr_of_le (r : FRecord) (h : r.arr_time ≤ r.dep_time) :
    (fixFlightData r).arr_time = r.sched_arr_time + r.dep_delay := by
  simp only [fixFlightData]
  split_ifs <;> rfl

lemma fix_dep_delay_of_close (r : FRecord)
    (h : npIsClose r.dep_delay (r.dep_time - r.sched_dep_time) 2) :
    (fixFlightData r).dep_delay = r.dep_delay := by
  simp only [fixFlightData]
  split_ifs <;> rfl

lemma fix_dep_delay_of_far (r : FRecord)
    (h : ¬ npIsClose r.dep_delay (r.dep_time - r.sched_dep_time) 2) :
    (fixFlightData r).dep_delay = r.dep_time - r.sched_dep_time := by
  simp only [fixFlightData]
  split_ifs <;> rfl

lemma fix_dep_delay_close (r : FRecord) :
    npIsClose (fixFlightData r).dep_delay (r.dep_time - r.sched_dep_time) 2 := by
  by_cases h : npIsClose r.dep_delay (r.dep_time - r.sched_dep_time) 2
  · rw [fix_dep_delay_of_close r h]; exact h
  · rw [fix_dep_delay_of_far r h]; exact npIsClose_refl _ 2 (by norm_num)

lemma fix_arr_delay_of_close (r : FRecord)
    (h : npIsClose r.arr_delay (r.arr_time - r.sched_arr_time) 2) :
    (fixFlightData r).arr_delay = r.arr_delay := by
  simp only [fixFlightData]
  split_ifs <;> rfl

lemma fix_arr_delay_of_far (r : FRecord)
    (h : ¬ npIsClose r.arr_delay (r.arr_time - r.sched_arr_time) 2) :
    (fixFlightData r).arr_delay = r.arr_time - r.sched_arr_time := by
  simp only [fixFlightData]
  split_ifs <;> rfl

lemma fix_arr_delay_close (r : FRecord) :
    npIsClose (fixFlightData r).arr_delay (r.arr_time - r.sched_arr_time) 2 := by
  by_cases h : npIsClose r.arr_delay (r.arr_time - r.sched_arr_time) 2
  · rw [fix_arr_delay_of_close r h]; exact h
  · rw [fix_arr_delay_of_far r h]; exact npIsClose_refl _ 2 (by norm_num)

lemma fix_air_of_close (r : FRecord) (h1 : r.dep_time < r.arr_time)
    (h2 : npIsClose (r.arr_time - r.dep_time) r.air_time 5) :
    (fixFlightData r).air_time = r.air_time := by
  simp only [fixFlightData]
  split_ifs <;> first | rfl | omega

lemma fix_air_of_far (r : FRecord) (h1 : r.dep_time < r.arr_time)
    (h2 : ¬ npIsClose (r.arr_time - r.dep_time) r.air_time 5) :
    (fixFlightData r).air_time = r.arr_time - r.dep_time := by
  simp only [fixFlightData]
  split_ifs <;> first | rfl | omega

lemma fix_air_close_of_lt (r : FRecord) (h : r.dep_time < r.arr_time) :
    npIsClose (r.arr_time - r.dep_time) (fixFlightData r).air_time 5 := by
  by_cases h2 : npIsClose (r.arr_time - r.dep_time) r.air_time 5
  · rw [fix_air_of_close r h h2]; exact h2
  · rw [fix_air_of_far r h h2]; exact npIsClose_refl _ 5 (by norm_num)

lemma rollCorrect_sched_dep (r : FRecord) :
    (rolloverCorrect r).sched_dep_time = r.sched_dep_time := by
  simp only [rolloverCorrect, rolloverArr, rolloverSchedArr, rolloverDep]
  split_ifs <;> rfl

lemma rollCorrect_dep (r : FRecord) :
    (rolloverCorrect r).dep_time =
      if hourOf r.dep_time < 6 ∧ 18 < hourOf r.sched_dep_time ∧
         r.dep_time < r.sched_dep_time
      then r.dep_time + 1440 else r.dep_time := by
  simp only [rolloverCorrect, rolloverArr, rolloverSchedArr, rolloverDep]
  split_ifs <;> simp_all

lemma rollCorrect_sched_arr (r : FRecord) :
    (rolloverCorrect r).sched_arr_time =
      if hourOf r.sched_arr_time < 6 ∧ 18 < hourOf r.sched_dep_time ∧
         r.sched_arr_time < r.sched_dep_time
      then r.sched_arr_time + 1440 else r.sched_arr_time := by
  simp only [rolloverCorrect, rolloverArr, rolloverSchedArr, rolloverDep]
  split_ifs <;> simp_all

lemma rollCorrect_arr (r : FRecord) :
    (rolloverCorrect r).arr_time =
      if hourOf r.arr_time < 6 ∧ 18 < hourOf (rolloverDep r).dep_time ∧
         r.arr_time < (rolloverDep r).dep_time
      then r.arr_time + 1440 else r.arr_time := by
  simp only [rolloverCorrect, rolloverArr, rolloverSchedArr, rolloverDep]
  split_ifs <;> simp_all

lemma rollDep_dep (r : FRecord) :
    (rolloverDep r).dep_time =
      if hourOf r.dep_time < 6 ∧ 18 < hourOf r.sched_dep_time ∧
         r.dep_time < r.sched_dep_time
      then r.dep_time + 1440 else r.dep_time := by
  simp only [rolloverDep]; split_ifs <;> rfl

lemma rollCorrect_dep_eq_rollDep (r : FRecord) :
    (rolloverCorrect r).dep_time = (rolloverDep r).dep_time := by
  rw [rollCorrect_dep, rollDep_dep]


/-! Claim C10: TimeCodec performs no range validation. -/

/-- Claim C10: time_to_timedelta performs no range validation on the
decoded components: every non-null numeric input n yields the duration
(n div 100) hours plus (n mod 100) minutes (never missing), so anchored
to a date, 1299 decodes to the same instant as 1339 (13:39) and 2400
decodes to midnight of the following day. -/
theorem c10_timecodec_no_range_check : ∀ day n : ℤ,
    timeToTimedelta (some n) = some (60 * Int.fdiv n 100 + Int.fmod n 100) ∧
    (timeToTimedelta (some n)).isSome = true ∧
    1440 * day + timeToTimedeltaZ 1299 = 1440 * day + timeToTimedeltaZ 1339 ∧
    1440 * day + timeToTimedeltaZ 2400 = 1440 * (day + 1) := by
  intro day n
  have h1 : timeToTimedeltaZ 1299 = 819 := by decide
  have h2 : timeToTimedeltaZ 1339 = 819 := by decide
  have h3 : timeToTimedeltaZ 2400 = 1440 := by decide
  refine ⟨rfl, rfl, ?_, ?_⟩
  · rw [h1, h2]
  · rw [h3]; ring

/-! Claim C8: the three rollover rules, their guards, order and
compounding. -/

/-- Claim C8: RolloverCorrector advances actual departure by exactly one
day iff its three guard conditions hold (hour of actual departure below
6, hour of scheduled departure above 18, actual departure before
scheduled departure), analogously for scheduled arrival (guarded against
scheduled departure) and actual arrival (guarded against the actual
departure as already updated by rule 1, so the rules compound); a
timestamp whose guards do not all hold is left unchanged, and the
scheduled departure is never changed. -/
theorem c8_rollover_rules : ∀ r : FRecord,
    ((rolloverCorrect r).dep_time = r.dep_time + 1440 ↔
      hourOf r.dep_time < 6 ∧ 18 < hourOf r.sched_dep_time ∧
      r.dep_time < r.sched_dep_time) ∧
    (¬ (hourOf r.dep_time < 6 ∧ 18 < hourOf r.sched_dep_time ∧
        r.dep_time < r.sched_dep_time) →
      (rolloverCorrect r).dep_time = r.dep_time) ∧
    ((rolloverCorrect r).sched_arr_time = r.sched_arr_time + 1440 ↔
      hourOf r.sched_arr_time < 6 ∧ 18 < hourOf r.sched_dep_time ∧
      r.sched_arr_time < r.sched_dep_time) ∧
    (¬ (hourOf r.sched_arr_time < 6 ∧ 18 < hourOf r.sched_dep_time ∧
        r.sched_arr_time < r.sched_dep_time) →
      (rolloverCorrect r).sched_arr_time = r.sched_arr_time) ∧
    ((rolloverCorrect r).arr_time = r.arr_time + 1440 ↔
      hourOf r.arr_time < 6 ∧ 18 < hourOf (rolloverCorrect r).dep_time ∧
      r.arr_time < (rolloverCorrect r).dep_time) ∧
    (¬ (hourOf r.arr_time < 6 ∧ 18 < hourOf (rolloverCorrect r).dep_time ∧
        r.arr_time < (rolloverCorrect r).dep_time) →
      (rolloverCorrect r).arr_time = r.arr_time) ∧
    (rolloverCorrect r).sched_dep_time = r.sched_dep_time := by
  intro r
  refine ⟨?_, ?_, ?_, ?_, ?_, ?_, rollCorrect_sched_dep r⟩
  · rw [rollCorrect_dep]; split_ifs with h
    · simp [h]
    · simp [h]
  · intro h; rw [rollCorrect_dep, if_neg h]
  · rw [rollCorrect_sched_arr]; split_ifs with h
    · simp [h]
    · simp [h]
  · intro h; rw [rollCorrect_sched_arr, if_neg h]
  · rw [rollCorrect_arr, rollCorrect_dep_eq_rollDep]; split_ifs with h
    · simp [h]
    · simp [h]
  · intro h; rw [rollCorrect_dep_eq_rollDep] at h; rw [rollCorrect_arr, if_neg h]

/-- Example record for the C8 witness: actual departure at 02:00 against
a scheduled departure at 23:00 of the same day. -/
def exC8 : FRecord :=
  { date := 0, sched_dep_time := 1380, dep_time := 120, sched_arr_time := 1390,
    arr_time := 240, dep_delay := 0, arr_delay := 0, air_time := 120,
    origin := 0, dest := 1 }

/-- Witness for C8: on exC8 the guards of rule 1 hold and the actual
departure advances by one day. -/
theorem c8_witness : (rolloverCorrect exC8).dep_time = exC8.dep_time + 1440 :=
  (c8_rollover_rules exC8).1.mpr (by decide)

/-! Claim C7: step 1 of the pipeline drops a record iff a null occurs in
the structurally-required fields only.  The code runs flights.dropna(),
which drops a row with a null in ANY column, so a record whose only null
is in a nullable field (for instance air_time) is dropped as well: the
claim is refuted and amended to any-null semantics. -/

/-- Counterexample record for C7: every field present except air_time. -/
def rawC7 : RawRecord :=
  { year := some 2023, month := some 1, day := some 1,
    sched_dep_time := some 1000, dep_time := some 1005,
    sched_arr_time := some 1200, arr_time := some 1210,
    dep_delay := some 5, arr_delay := some 10, air_time := none,
    origin := some 0, dest := some 1 }

/-- Counterexample for C7: a record whose only null is the nullable
air_time column, with all calendar and required fields present, is
nevertheless dropped by pipeline step 1. -/
theorem c7_counterexample :
    dropnaStage [rawC7] = [] ∧ rawC7.air_time = none ∧
    rawC7.year.isSome = true ∧ rawC7.month.isSome = true ∧
    rawC7.day.isSome = true ∧ rawC7.sched_dep_time.isSome = true ∧
    rawC7.dep_time.isSome = true ∧ rawC7.sched_arr_time.isSome = true ∧
    rawC7.arr_time.isSome = true ∧ rawC7.origin.isSome = true ∧
    rawC7.dest.isSome = true := by decide

/-- Claim C7 amended: pipeline step 1 (flights.dropna) drops a record
iff ANY of its columns is null, including the nullable packed times,
delays and air time; a record survives step 1 iff every column is
present. -/
theorem c7_dropna_membership : ∀ (B : List RawRecord) (r : RawRecord),
    r ∈ dropnaStage B ↔ r ∈ B ∧
      r.year.isSome = true ∧ r.month.isSome = true ∧ r.day.isSome = true ∧
      r.sched_dep_time.isSome = true ∧ r.dep_time.isSome = true ∧
      r.sched_arr_time.isSome = true ∧ r.arr_time.isSome = true ∧
      r.dep_delay.isSome = true ∧ r.arr_delay.isSome = true ∧
      r.air_time.isSome = true ∧ r.origin.isSome = true ∧
      r.dest.isSome = true := by
  intro B r
  simp [dropnaStage, List.mem_filter, rawComplete, Bool.and_eq_true, and_assoc]

/-- Complete record for the C7 witness. -/
def rawC7w : RawRecord :=
  { year := some 2023, month := some 1, day := some 2,
    sched_dep_time := some 900, dep_time := some 905,
    sched_arr_time := some 1100, arr_time := some 1110,
    dep_delay := some 5, arr_delay := some 10, air_time := some 120,
    origin := some 0, dest := some 1 }

/-- Witness for C7 amended: a fully non-null record survives step 1. -/
theorem c7_witness : rawC7w ∈ dropnaStage [rawC7w] :=
  (c7_dropna_membership [rawC7w] rawC7w).mpr (by decide)

/-! Claim C1: the claim that fix_flight_data always restores strict
ordering actual arrival after actual departure is refuted: the step-2
reconstruction uses the original stored departure delay and is only
best-effort, so the repaired arrival can still precede the departure.
The nearby true statement: strict ordering holds exactly for records the
validator tags consistent. -/

/-- Counterexample record for C1: scheduled departure 10:00, actual
departure 12:00 (stored departure delay 0, repaired to 120 by step 1),
scheduled arrival 10:50, actual arrival 11:40. -/
def exC1 : FRecord :=
  { date := 0, sched_dep_time := 600, dep_time := 720, sched_arr_time := 650,
    arr_time := 700, dep_delay := 0, arr_delay := 50, air_time := 0,
    origin := 0, dest := 1 }

/-- Counterexample for C1: after fix_flight_data the actual arrival of
exC1 (reconstructed by step 2) is still not after the actual departure,
with both timestamps present. -/
theorem c1_counterexample :
    (fixFlightData exC1).arr_time ≤ (fixFlightData exC1).dep_time := by decide

/-- Claim C1 amended: fix_flight_data does not guarantee the ordering;
strict ordering actual arrival after actual departure holds for exactly
those repaired records that check_flight_consistency tags consistent
(the validator enforces it; records still violating it are flagged, not
guaranteed repaired). -/
theorem c1_order_for_consistent : ∀ r : FRecord,
    checkFlightConsistency (fixFlightData r) = true →
    (fixFlightData r).dep_time < (fixFlightData r).arr_time := by
  intro r h
  unfold checkFlightConsistency at h
  split_ifs at h with h1 h2 h3
  · exact lt_of_not_le h1

/-- Consistent record for the C1 witness: on-time flight, air time
matching the timestamps. -/
def exC1w : FRecord :=
  { date := 0, sched_dep_time := 600, dep_time := 600, sched_arr_time := 720,
    arr_time := 720, dep_delay := 0, arr_delay := 0, air_time := 120,
    origin := 0, dest := 1 }

/-- Witness for C1 amended: exC1w passes validation after repair and
satisfies the strict ordering. -/
theorem c1_witness :
    (fixFlightData exC1w).dep_time < (fixFlightData exC1w).arr_time :=
  c1_order_for_consistent exC1w (by decide)

/-! Claim C2: the claim that step 2 reconstructs the arrival from the
possibly-just-repaired departure delay is refuted: the source reads the
local variable dep_delay captured at entry, so even when step 1
overwrote the stored field, the reconstruction uses the original stored
value. -/

/-- Counterexample record for C2: stored departure delay 0, derived
delay 120 (so step 1 repairs the field), arrival not after departure
(so step 2 fires). -/
def exC2 : FRecord :=
  { date := 0, sched_dep_time := 600, dep_time := 720, sched_arr_time := 650,
    arr_time := 700, dep_delay := 0, arr_delay := 50, air_time := 0,
    origin := 0, dest := 1 }

/-- Counterexample for C2: step 1 repairs dep_delay to 120, yet step 2
reconstructs the arrival as scheduled arrival plus the ORIGINAL stored
delay 0 (giving 650), not the repaired value (which would give 770). -/
theorem c2_counterexample :
    (fixFlightData exC2).dep_delay = 120 ∧
    (fixFlightData exC2).arr_time = exC2.sched_arr_time + exC2.dep_delay ∧
    (fixFlightData exC2).arr_time ≠
      exC2.sched_arr_time + (fixFlightData exC2).dep_delay := by decide

/-- Claim C2 amended: whenever the record enters the repairer with
actual arrival not after actual departure, step 2 replaces the arrival
with scheduled arrival plus the ORIGINAL stored departure delay as read
at entry, even when step 1 overwrote the stored field with the derived
value. -/
theorem c2_reconstruction_uses_original_delay : ∀ r : FRecord,
    r.arr_time ≤ r.dep_time →
    (fixFlightData r).arr_time = r.sched_arr_time + r.dep_delay := by
  intro r h
  exact fix_arr_of_le r h

/-- Witness for C2 amended: instantiated on exC2 itself. -/
theorem c2_witness :
    (fixFlightData exC2).arr_time = exC2.sched_arr_time + exC2.dep_delay :=
  c2_reconstruction_uses_original_delay exC2 (by decide)

/-! Claim C3: the claim that validated records satisfy the plus-minus
two minute arrival-delay invariant against the POST-repair arrival is
refuted: step 4 recomputes the delay from the arrival captured at entry,
before the step-2 repair.  The invariant that does hold relates the
stored arrival delay to the PRE-repair arrival timestamp, for every
record. -/

/-- Counterexample record for C3: arrival 09:50 not after departure
10:00, so step 2 rewrites the arrival to the scheduled arrival 12:00;
the stored arrival delay matches the pre-repair arrival. -/
def exC3 : FRecord :=
  { date := 0, sched_dep_time := 600, dep_time := 600, sched_arr_time := 720,
    arr_time := 590, dep_delay := 0, arr_delay := -130, air_time := 120,
    origin := 0, dest := 1 }

/-- Counterexample for C3: exC3 is tagged consistency-valid after
repair, yet its stored arrival delay differs from the post-repair
derived arrival delay by 130 minutes, far beyond the 2-minute
tolerance. -/
theorem c3_counterexample :
    checkFlightConsistency (fixFlightData exC3) = true ∧
    2 < |(fixFlightData exC3).arr_delay -
          ((fixFlightData exC3).arr_time - (fixFlightData exC3).sched_arr_time)| := by
  decide

/-- Claim C3 amended: after repair, the stored arrival delay is within
the np.isclose tolerance (2 minutes plus the relative term) of the delay
derived from the PRE-repair actual arrival (the value captured before
the step-2 reconstruction) for every record; the invariant is not
established against the post-repair arrival. -/
theorem c3_arr_delay_close_to_original_arrival : ∀ r : FRecord,
    npIsClose (fixFlightData r).arr_delay (r.arr_time - r.sched_arr_time) 2 := by
  intro r
  exact fix_arr_delay_close r

/-! Claim C4: pipeline idempotence is refuted: when the step-2 arrival
reconstruction fired on the first pass, a second pass sees the repaired
departure delay and reconstructs a different arrival, so fields change
again.  The repair stage is idempotent on records whose actual arrival
already follows the actual departure. -/

/-- Airport table for the C4 counterexample: both airports resolvable. -/
def tblC4 : AirportTable := [(0, -5), (1, -8)]

/-- Record batch for the C4 counterexample: a single record on which the
arrival reconstruction fires. -/
def exC4 : FRecord :=
  { date := 0, sched_dep_time := 600, dep_time := 720, sched_arr_time := 650,
    arr_time := 700, dep_delay := 0, arr_delay := 50, air_time := 0,
    origin := 0, dest := 1 }

/-- Counterexample for C4: running the record-level pipeline stages a
second time on their own output changes the batch (the reconstructed
arrival, air time and arrival delay all drift on the second pass), so
the pipeline is not idempotent. -/
theorem c4_counterexample :
    pipelineOnClean tblC4 (pipelineOnClean tblC4 [exC4]) ≠
      pipelineOnClean tblC4 [exC4] := by decide

/-- Claim C4 amended: re-running the repair on its own output changes
nothing only when the arrival reconstruction did not fire: for every
record whose actual arrival strictly follows its actual departure,
fix_flight_data is idempotent. -/
theorem c4_fix_idempotent_when_ordered : ∀ r : FRecord,
    r.dep_time < r.arr_time →
    fixFlightData (fixFlightData r) = fixFlightData r := by
  intro r h
  have hd := fix_dep r
  have ha := fix_arr_of_lt r h
  have hsd := fix_sched_dep r
  have hsa := fix_sched_arr r
  have h2 : (fixFlightData r).dep_time < (fixFlightData r).arr_time := by
    rw [hd, ha]; exact h
  ext
  · rw [fix_date]
  · rw [fix_sched_dep]
  · rw [fix_dep]
  · rw [fix_sched_arr]
  · rw [fix_arr_of_lt _ h2]
  · refine fix_dep_delay_of_close _ ?_
    rw [hd, hsd]
    exact fix_dep_delay_close r
  · refine fix_arr_delay_of_close _ ?_
    rw [ha, hsa]
    exact fix_arr_delay_close r
  · refine fix_air_of_close _ h2 ?_
    rw [ha, hd]
    exact fix_air_close_of_lt r h
  · rw [fix_origin]
  · rw [fix_dest]

/-- Ordered record for the C4 witness. -/
def exC4w : FRecord :=
  { date := 0, sched_dep_time := 600, dep_time := 610, sched_arr_time := 720,
    arr_time := 740, dep_delay := 3, arr_delay := 20, air_time := 100,
    origin := 0, dest := 1 }

/-- Witness for C4 amended: on the ordered record exC4w the repair is a
fixed point after one application. -/
theorem c4_witness :
    fixFlightData (fixFlightData exC4w) = fixFlightData exC4w :=
  c4_fix_idempotent_when_ordered exC4w (by decide)

/-! Claim C5: the claim that every emitted record carries a boolean
consistency flag is refuted: clean_flights_data drops the is_consistent
column before returning (the retention of failing records, however,
holds: validation drops nothing). -/

/-- Airport table for the C5 counterexample. -/
def tblC5 : AirportTable := [(0, -5), (1, -8)]

/-- Raw record for the C5 counterexample: its repaired form fails
validation (the reconstructed arrival precedes the departure). -/
def rawC5 : RawRecord :=
  { year := some 0, month := some 1, day := some 1,
    sched_dep_time := some 1000, dep_time := some 1200,
    sched_arr_time := some 1050, arr_time := some 1140,
    dep_delay := some 0, arr_delay := some 50, air_time := some 0,
    origin := some 0, dest := some 1 }

/-- Decoded form of rawC5 (day index 32, minutes since epoch). -/
def frawC5 : FRecord :=
  { date := 32, sched_dep_time := 46680, dep_time := 46800,
    sched_arr_time := 46730, arr_time := 46780, dep_delay := 0,
    arr_delay := 50, air_time := 0, origin := 0, dest := 1 }

/-- Counterexample for C5: the repaired rawC5 fails validation yet is
retained as the single emitted record, and the emitted output is
identical whether the internal tag was true or false: the output does
not carry the consistency flag. -/
theorem c5_counterexample :
    checkFlightConsistency (fixFlightData frawC5) = false ∧
    (cleanFlightsData tblC5 [rawC5]).map (fun o => o.base) =
      [fixFlightData frawC5] ∧
    localStage tblC5 [{ base := fixFlightData frawC5, is_consistent := true }] =
      localStage tblC5 [{ base := fixFlightData frawC5, is_consistent := false }] := by
  decide

/-- Claim C5 amended: records failing validation are retained (the
validator drops nothing), but the is_consistent flag is computed only
internally and dropped before emission: the emitted output equals the
flag-free emission of the repaired records, independent of the
validator. -/
theorem c5_output_flag_free : ∀ (tbl : AirportTable) (B : List RawRecord),
    cleanFlightsData tbl B =
      (fixStage (schedFilterStage (rolloverStage (decodeStage
        (dedupStage (dropnaStage B)))))).filterMap (emitF tbl) := by
  intro tbl B
  unfold cleanFlightsData localStage tagStage
  rw [List.filterMap_map]
  rfl

/-! Claim C6: the claim that records with unresolvable airport offsets
remain in the cleaned output (losing only the local-arrival field) is
refuted: the pipeline filters such records out of the single returned
table entirely. -/

/-- Airport table for the C6 counterexample: destination 1 missing. -/
def tblC6 : AirportTable := [(0, -5)]

/-- Raw record for the C6 counterexample: fully clean and consistent,
but its destination has no resolvable offset. -/
def rawC6 : RawRecord :=
  { year := some 0, month := some 1, day := some 1,
    sched_dep_time := some 900, dep_time := some 905,
    sched_arr_time := some 1100, arr_time := some 1110,
    dep_delay := some 5, arr_delay := some 10, air_time := some 120,
    origin := some 0, dest := some 1 }

/-- Counterexample for C6: the record survives every stage up to and
including validation, yet the cleaned output is empty: a record whose
destination offset is unresolvable is dropped from the pipeline output
entirely, not merely from the local-time subset. -/
theorem c6_counterexample :
    cleanFlightsData tblC6 [rawC6] = [] ∧
    tagStage (fixStage (schedFilterStage (rolloverStage (decodeStage
      (dedupStage (dropnaStage [rawC6])))))) ≠ [] := by decide

/-- Claim C6 amended: the local-time stage removes whole records: every
record in the cleaned output has both offsets resolvable (so records
with an unresolvable origin or destination never appear), and carries
exactly those offsets and the derived local arrival time; nothing else
about an emitted record is affected by the stage. -/
theorem c6_output_only_resolvable :
    ∀ (tbl : AirportTable) (B : List RawRecord) (o : OutRecord),
    o ∈ cleanFlightsData tbl B →
    airportOffset tbl o.base.origin = some o.dep_offset ∧
    airportOffset tbl o.base.dest = some o.arr_offset ∧
    o.local_arr_time = o.base.arr_time - 60 * o.dep_offset + 60 * o.arr_offset := by
  intro tbl B o h
  unfold cleanFlightsData localStage at h
  rw [List.mem_filterMap] at h
  obtain ⟨t, -, ht⟩ := h
  unfold emitF at ht
  split at ht
  next o1 o2 h1 h2 =>
    injection ht with ht
    subst ht
    exact ⟨h1, h2, rfl⟩
  next => exact absurd ht (by simp)

/-- Airport table for the C6 witness: both airports resolvable. -/
def tblC6w : AirportTable := [(0, -5), (1, -8)]

/-- Raw record for the C6 witness. -/
def rawC6w : RawRecord :=
  { year := some 0, month := some 1, day := some 1,
    sched_dep_time := some 900, dep_time := some 905,
    sched_arr_time := some 1100, arr_time := some 1110,
    dep_delay := some 5, arr_delay := some 10, air_time := some 120,
    origin := some 0, dest := some 1 }

/-- Decoded and repaired form of rawC6w (repair changes nothing). -/
def fC6w : FRecord :=
  { date := 32, sched_dep_time := 46620, dep_time := 46625,
    sched_arr_time := 46740, arr_time := 46750, dep_delay := 5,
    arr_delay := 10, air_time := 120, origin := 0, dest := 1 }

/-- The emitted output record for the C6 witness. -/
def outC6w : OutRecord :=
  { base := fC6w, dep_offset := -5, arr_offset := -8, local_arr_time := 46570 }

/-- Witness for C6 amended: outC6w is in the cleaned output of rawC6w
and carries the resolved offsets and derived local arrival time. -/
theorem c6_witness :
    airportOffset tblC6w outC6w.base.origin = some outC6w.dep_offset ∧
    airportOffset tblC6w outC6w.base.dest = some outC6w.arr_offset ∧
    outC6w.local_arr_time =
      outC6w.base.arr_time - 60 * outC6w.dep_offset + 60 * outC6w.arr_offset :=
  c6_output_only_resolvable tblC6w [rawC6w] outC6w (by decide)

/-! Claim C9: the 5-versus-6 (and 2-versus-3) tolerance boundary is
claimed for every magnitude of the stored values, but np.isclose has a
relative tolerance of 1e-5 times its second argument, so for large
magnitudes a difference of 6 (resp. 3) is NOT repaired. -/

/-- Counterexample record for C9: the step-2 reconstruction (driven by
the huge stored departure delay) makes the derived air time about one
million minutes; the stored air time then differs from it by exactly 6
minutes. -/
def exC9 : FRecord :=
  { date := 0, sched_dep_time := 600, dep_time := 610, sched_arr_time := 700,
    arr_time := 605, dep_delay := 1000000, arr_delay := -95,
    air_time := 1000096, origin := 0, dest := 1 }

/-- Counterexample for C9: on exC9 the stored air time differs from the
timestamp-derived air time by exactly 6 minutes, yet it is NOT repaired,
because the relative term of np.isclose (1e-5 times the stored air time,
about 10 minutes here) widens the boundary. -/
theorem c9_counterexample :
    |((fixFlightData exC9).arr_time - (fixFlightData exC9).dep_time) -
      exC9.air_time| = 6 ∧
    (fixFlightData exC9).air_time = exC9.air_time := by decide

/-- Claim C9 amended: the boundary semantics hold with the np.isclose
relative term accounted for.  For records whose actual arrival follows
the actual departure: a difference of exactly 2 (delays) or 5 (air time)
is never repaired at any magnitude, and a difference of exactly 3
(delays) or 6 (air time) is repaired provided the relative term is below
one minute, which is the comparand having magnitude below 100000 minutes
(the comparand is the derived value for the delay checks and the stored
value for the air-time check). -/
theorem c9_tolerance_boundaries : ∀ r : FRecord,
    r.dep_time < r.arr_time →
    (|r.dep_delay - (r.dep_time - r.sched_dep_time)| = 2 →
      (fixFlightData r).dep_delay = r.dep_delay) ∧
    (|r.dep_delay - (r.dep_time - r.sched_dep_time)| = 3 →
      |r.dep_time - r.sched_dep_time| < 100000 →
      (fixFlightData r).dep_delay = r.dep_time - r.sched_dep_time) ∧
    (|(r.arr_time - r.dep_time) - r.air_time| = 5 →
      (fixFlightData r).air_time = r.air_time) ∧
    (|(r.arr_time - r.dep_time) - r.air_time| = 6 →
      |r.air_time| < 100000 →
      (fixFlightData r).air_time = r.arr_time - r.dep_time) ∧
    (|r.arr_delay - (r.arr_time - r.sched_arr_time)| = 2 →
      (fixFlightData r).arr_delay = r.arr_delay) ∧
    (|r.arr_delay - (r.arr_time - r.sched_arr_time)| = 3 →
      |r.arr_time - r.sched_arr_time| < 100000 →
      (fixFlightData r).arr_delay = r.arr_time - r.sched_arr_time) := by
  intro r h
  refine ⟨?_, ?_, ?_, ?_, ?_, ?_⟩
  · intro h2
    refine fix_dep_delay_of_close r ?_
    unfold npIsClose
    rw [h2]
    have := abs_nonneg (r.dep_time - r.sched_dep_time)
    linarith
  · intro h2 h3
    refine fix_dep_delay_of_far r ?_
    intro hc
    unfold npIsClose at hc
    rw [h2] at hc
    linarith
  · intro h2
    refine fix_air_of_close r h ?_
    unfold npIsClose
    rw [h2]
    have := abs_nonneg r.air_time
    linarith
  · intro h2 h3
    refine fix_air_of_far r h ?_
    intro hc
    unfold npIsClose at hc
    rw [h2] at hc
    linarith
  · intro h2
    refine fix_arr_delay_of_close r ?_
    unfold npIsClose
    rw [h2]
    have := abs_nonneg (r.arr_time - r.sched_arr_time)
    linarith
  · intro h2 h3
    refine fix_arr_delay_of_far r ?_
    intro hc
    unfold npIsClose at hc
    rw [h2] at hc
    linarith

/-- Record for the C9 witness: the air-time difference is exactly 6 at
small magnitude, so the repair fires. -/
def exC9w : FRecord :=
  { date := 0, sched_dep_time := 600, dep_time := 600, sched_arr_time := 700,
    arr_time := 700, dep_delay := 0, arr_delay := 0, air_time := 94,
    origin := 0, dest := 1 }

/-- Witness for C9 amended: on exC9w, whose stored air time is 6 minutes
below the derived 100 minutes, step 3 overwrites the stored value. -/
theorem c9_witness :
    (fixFlightData exC9w).air_time = exC9w.arr_time - exC9w.dep_time :=
  ((c9_tolerance_boundaries exC9w (by decide)).2.2.2.1) (by decide) (by decide)

end Flights
